import Mathlib

/-!
Verification of the mutual-fund monitor pipeline (`src/mf.py`).

The program loads a tabular dataset, filters rows by an inclusive date
range, and summarises a chosen numeric metric per calendar month
(mean and sample standard deviation, pandas `groupby ... agg`).

Modelling choices, each tied to the line of `mf.py` it embeds:

* A `Row` carries a typed calendar `Date` (the state after
  `pd.to_datetime` has run) plus the remaining cells as an association
  list from column name to `Value`.  A `DF` (DataFrame) is the ordered
  column-name list together with the ordered row list.
* Cell values: a number (modelled in `ℚ`; the claims under study concern
  exact facts - a standard deviation that is exactly `0`, or the NaN
  sentinel - which are faithfully expressed over `ℚ` with `Option`
  for NaN/missing), the missing sentinel `na`, a string, or a pandas
  `Period` (what `Date.dt.to_period` writes into the `Month` column).
* `filter_data` parses both bounds with the semantics of CPython
  `datetime.strptime(s, "%Y-%m-%d")`: a 4-digit year, a 1- or 2-digit
  month `1..12`, a 1- or 2-digit day, nothing left over, and the
  resulting `datetime(y, m, d)` must be a real calendar date with
  `y ≥ 1`.  A failed parse is the `ValueError` the spec calls
  `FormatError`.  The mask `(Date >= start) & (Date <= end)` is a
  `List.filter`, and pandas boolean-mask indexing returns a fresh frame.
* `summarize_changes` first checks `metric ∈ columns` (raising the
  spec's `UnknownMetricError` with the metric name echoed), then writes
  the `Month` column into the frame it was passed (pandas column
  assignment: replaced in place when present, appended when absent),
  then groups by month.  pandas `mean`/`std` skip NaN, yield NaN on an
  empty or singleton sample (`ddof = 1`), and raise when the column
  holds values they cannot aggregate (strings, periods): that raise is
  `Err.aggError`.  Since `std = Real.sqrt` of the sample variance and
  `sqrt` is exact at `0` and undefined exactly where the variance is,
  the summary record carries the sample variance `svar`; the code's
  `Standard Deviation` cell is `0` / NaN exactly when `svar` is.
* `preprocess_data` sorts with `sort_values(by=["Date"])`, whose default
  `kind="quicksort"` (numpy introsort) does not promise a tie order; it
  is therefore not given an executable model here, and claims that turn
  on its tie behaviour are left unsettled rather than decided by an
  arbitrary choice of sorting algorithm.
-/

deriving instance DecidableEq for Except

namespace MF

/-- A calendar date `(year, month, day)`: the typed content of the `Date`
column after `pd.to_datetime` (line 29 of `mf.py`). -/
structure Date where
  y : Nat
  m : Nat
  d : Nat
  deriving DecidableEq, Repr

/-- The pandas datetime order `a <= b`: lexicographic on
(year, month, day). -/
def dateLe (a b : Date) : Bool :=
  decide (a.y < b.y ∨ (a.y = b.y ∧ (a.m < b.m ∨ (a.m = b.m ∧ a.d ≤ b.d))))

/-- A cell value: a number, the missing sentinel (NaN), a string, or a
pandas `Period` (what `to_period` puts in the `Month` column). -/
inductive Value where
  | num (q : ℚ)
  | na
  | str (s : String)
  | per (y m : Nat)
  deriving DecidableEq, Repr

/-- One dataset row: its (already parsed) `Date` plus the other cells,
keyed by column name. -/
structure Row where
  date : Date
  cells : List (String × Value)
  deriving DecidableEq, Repr

/-- A DataFrame: ordered column names (always including `Date`) and the
ordered rows. -/
structure DF where
  cols : List String
  rows : List Row
  deriving DecidableEq, Repr

/-- The errors the two query operations can raise (spec §7):
`formatError` is the `ValueError` of `datetime.strptime`,
`unknownMetric` the `ValueError` raised on line 61 of `mf.py`,
`aggError` the error pandas raises when `mean`/`std` meet a
non-aggregatable column. -/
inductive Err where
  | formatError
  | unknownMetric (msg : String)
  | aggError
  deriving DecidableEq, Repr

/-- The numeric value of a digit character, if it is one. -/
def digitVal (c : Char) : Option Nat :=
  if '0' ≤ c ∧ c ≤ '9' then some (c.toNat - 48) else none

/-- One month/day field of `strptime "%Y-%m-%d"`.  CPython's `_strptime`
compiles `%m` to the regex `1[0-2]|0[1-9]|[1-9]` and `%d` to
`3[01]|[12]\d|0[1-9]|[1-9]`: two digits when they form `1..maxv`
(`maxv` = 12 or 31), otherwise a single nonzero digit.  Returns the
field value and the unconsumed characters. -/
def parseField (maxv : Nat) : List Char → Option (Nat × List Char)
  | [] => none
  | [c1] =>
    match digitVal c1 with
    | some d1 => if 1 ≤ d1 then some (d1, []) else none
    | none => none
  | c1 :: c2 :: rest =>
    match digitVal c1, digitVal c2 with
    | some d1, some d2 =>
      if 1 ≤ 10 * d1 + d2 ∧ 10 * d1 + d2 ≤ maxv then some (10 * d1 + d2, rest)
      else if 1 ≤ d1 then some (d1, c2 :: rest) else none
    | some d1, none => if 1 ≤ d1 then some (d1, c2 :: rest) else none
    | none, _ => none

/-- Gregorian leap year, as `datetime` validates day-of-month. -/
def isLeap (y : Nat) : Bool :=
  (y % 4 == 0 && y % 100 != 0) || y % 400 == 0

/-- Number of days in a month, as `datetime(y, m, d)` validates `d`. -/
def daysInMonth (y m : Nat) : Nat :=
  if m = 2 then (if isLeap y then 29 else 28)
  else if m = 4 ∨ m = 6 ∨ m = 9 ∨ m = 11 then 30 else 31

/-- CPython `datetime.strptime(s, "%Y-%m-%d")` (lines 48-49 of `mf.py`):
exactly four year digits, a dash, a 1-2 digit month, a dash, a 1-2
digit day, no characters left over, and a real calendar date with
year at least 1 (`datetime.MINYEAR`).  `none` is the `ValueError`
the spec calls `FormatError`. -/
def parseDate (s : String) : Option Date :=
  match s.data with
  | a1 :: a2 :: a3 :: a4 :: rest =>
    match digitVal a1, digitVal a2, digitVal a3, digitVal a4 with
    | some w, some x, some y, some z =>
      match rest with
      | '-' :: r1 =>
        match parseField 12 r1 with
        | some (mo, r2) =>
          match r2 with
          | '-' :: r3 =>
            match parseField 31 r3 with
            | some (dy, r4) =>
              if r4 = [] ∧ 1 ≤ 1000 * w + 100 * x + 10 * y + z ∧
                  dy ≤ daysInMonth (1000 * w + 100 * x + 10 * y + z) mo then
                some ⟨1000 * w + 100 * x + 10 * y + z, mo, dy⟩
              else none
            | none => none
          | _ => none
        | none => none
      | _ => none
    | _, _, _, _ => none
  | _ => none

/-- Follows the spec's words rather than the code, for comparison with
`parseDate`: a strict `YYYY-MM-DD` string — exactly `dddd-dd-dd` with
zero padding, denoting a real calendar date. -/
def specValidYYYYMMDD (s : String) : Bool :=
  match s.data with
  | [a1, a2, a3, a4, b0, b1, b2, c0, c1, c2] =>
    match digitVal a1, digitVal a2, digitVal a3, digitVal a4,
        digitVal b1, digitVal b2, digitVal c1, digitVal c2 with
    | some w, some x, some y, some z, some m1, some m2, some d1, some d2 =>
      decide (b0 = '-' ∧ c0 = '-' ∧
        1 ≤ 1000 * w + 100 * x + 10 * y + z ∧
        1 ≤ 10 * m1 + m2 ∧ 10 * m1 + m2 ≤ 12 ∧
        1 ≤ 10 * d1 + d2 ∧
        10 * d1 + d2 ≤ daysInMonth (1000 * w + 100 * x + 10 * y + z) (10 * m1 + m2))
    | _, _, _, _, _, _, _, _ => false
  | _ => false

/-- Lines 40-50 of `mf.py`, `filter_data`: parse both bounds with
`strptime`, then keep the rows inside the inclusive window.  The pandas
boolean mask `(Date >= start) & (Date <= end)` preserves row order, and
mask indexing returns a fresh frame with the same columns. -/
def filter_data (data : DF) (start_date end_date : String) : Except Err DF :=
  match parseDate start_date, parseDate end_date with
  | some s, some e =>
    .ok ⟨data.cols, data.rows.filter (fun r => dateLe s r.date && dateLe r.date e)⟩
  | _, _ => .error .formatError

/-- The `(year, month)` grouping key of a row: the content of the
`Month` period column computed from its `Date` on line 63 of `mf.py`. -/
def monthKey (r : Row) : Nat × Nat := (r.date.y, r.date.m)

/-- pandas column assignment `df[k] = v`: replace the column in place
when present, append it at the end when absent. -/
def upsertCell (cells : List (String × Value)) (k : String) (v : Value) :
    List (String × Value) :=
  if (cells.lookup k).isSome then
    cells.map (fun p => if p.1 = k then (k, v) else p)
  else cells ++ [(k, v)]

/-- Line 63 of `mf.py`: `filtered_data["Month"] = filtered_data["Date"].dt.to_period("M")`,
writing the period `(year, month)` of each row's date into the frame. -/
def setMonth (df : DF) : DF :=
  ⟨if "Month" ∈ df.cols then df.cols else df.cols ++ ["Month"],
   df.rows.map (fun r => ⟨r.date, upsertCell r.cells "Month" (.per r.date.y r.date.m)⟩)⟩

/-- The cell of row `r` in column `metric`. -/
def cellOf (r : Row) (metric : String) : Option Value := r.cells.lookup metric

/-- The numeric content of a metric cell; `none` for NaN, a string, a
period, or an absent cell — exactly the values pandas `mean`/`std` do
not average. -/
def numOf (r : Row) (metric : String) : Option ℚ :=
  match cellOf r metric with
  | some (Value.num q) => some q
  | _ => none

/-- A metric cell pandas cannot aggregate at all (a string or a period):
`groupby(...).agg({metric: ["mean","std"]})` raises on such a column
instead of skipping the value. -/
def badCell (r : Row) (metric : String) : Bool :=
  match cellOf r metric with
  | some (Value.str _) => true
  | some (Value.per _ _) => true
  | _ => false

/-- The numeric metric values of a list of rows, NaN/non-cells skipped
(pandas `skipna`). -/
def numsOf (metric : String) (rows : List Row) : List ℚ :=
  rows.filterMap (fun r => numOf r metric)

/-- pandas `mean` of a sample: NaN (`none`) on an empty sample. -/
def meanOf (l : List ℚ) : Option ℚ :=
  if l = [] then none else some (l.sum / (l.length : ℚ))

/-- pandas `std` with `ddof = 1`, carried as the sample variance
`Σ (x - mean)² / (n - 1)`: NaN (`none`) on a sample of fewer than two
values.  The code's standard-deviation cell is its square root, which
is `0` / NaN exactly when `svar` is. -/
def varOf (l : List ℚ) : Option ℚ :=
  if l.length < 2 then none
  else some ((l.map (fun x => (x - l.sum / (l.length : ℚ)) ^ 2)).sum / ((l.length : ℚ) - 1))

/-- One output row of the summary frame: the month bucket key, the
metric's mean, and the sample variance (square of the reported
standard deviation). -/
structure SummaryRec where
  month : Nat × Nat
  mean : Option ℚ
  svar : Option ℚ
  deriving DecidableEq, Repr

/-- Order on month keys: `groupby` (with its default `sort=True`)
emits buckets in increasing key order. -/
def keyLe (a b : Nat × Nat) : Prop :=
  a.1 < b.1 ∨ (a.1 = b.1 ∧ a.2 ≤ b.2)

instance decKeyLe : DecidableRel keyLe := fun a b =>
  decidable_of_iff (a.1 < b.1 ∨ (a.1 = b.1 ∧ a.2 ≤ b.2)) Iff.rfl

/-- The distinct month keys of the rows, in increasing order:
the group keys of `groupby("Month")`. -/
def monthsOf (rows : List Row) : List (Nat × Nat) :=
  ((rows.map monthKey).dedup).insertionSort keyLe

/-- The rows of one month bucket, in frame order. -/
def bucketOf (rows : List Row) (k : Nat × Nat) : List Row :=
  rows.filter (fun r => decide (monthKey r = k))

/-- One summary record: `agg({metric: ["mean", "std"]})` on a bucket. -/
def mkRec (metric : String) (k : Nat × Nat) (rows : List Row) : SummaryRec :=
  ⟨k, meanOf (numsOf metric rows), varOf (numsOf metric rows)⟩

/-- Lines 52-66 of `mf.py`, `summarize_changes`: raise the
`UnknownMetricError` `ValueError` when the metric is not a column
(line 60, checked before anything else); otherwise write the `Month`
column into the argument frame (line 63), then aggregate per month -
raising when the metric column holds values `mean`/`std` cannot
aggregate.  Returns the frame as mutated together with the summary. -/
def summarize_changes (df : DF) (metric : String) :
    Except Err (DF × List SummaryRec) :=
  if metric ∈ df.cols then
    let df2 := setMonth df
    if df2.rows.any (fun r => badCell r metric) then .error .aggError
    else .ok (df2, (monthsOf df2.rows).map (fun k => mkRec metric k (bucketOf df2.rows k)))
  else .error (.unknownMetric ("Metric '" ++ metric ++ "' not found in the dataset."))

/-- The pipeline state: `self.data`, the loaded dataset. -/
structure Monitor where
  data : DF
  deriving DecidableEq, Repr

/-- One query of the example flow (lines 94-95 of `mf.py`): filter
`self.data`, then summarize the filtered frame.  `filter_data` only
reads `self.data` — pandas mask indexing returns a fresh copy — and
`summarize_changes` writes only into that copy, so the monitor state
is threaded through unchanged. -/
def runQuery (m : Monitor) (sd ed metric : String) :
    Except Err (DF × List SummaryRec) × Monitor :=
  match filter_data m.data sd ed with
  | .error e => (.error e, m)
  | .ok filtered =>
    match summarize_changes filtered metric with
    | .error e => (.error e, m)
    | .ok res => (.ok res, m)

/-! ### General lemmas about the embedded operations -/

/-- A bucket never yields more numeric values than it has rows. -/
theorem numsOf_length_le (metric : String) (rows : List Row) :
    (numsOf metric rows).length ≤ rows.length :=
  List.length_filterMap_le _ _

/-- When every row of a bucket carries the same numeric metric value,
the valid sample is that value repeated once per row. -/
theorem numsOf_constant (metric : String) (c : ℚ) (rows : List Row)
    (h : ∀ r ∈ rows, numOf r metric = some c) :
    numsOf metric rows = List.replicate rows.length c := by
  induction rows with
  | nil => rfl
  | cons r rs ih =>
    have hr : numOf r metric = some c := h r (by simp)
    have ihh := ih (fun x hx => h x (by simp [hx]))
    simp only [numsOf, List.filterMap_cons, hr] at ihh ⊢
    simp [ihh, List.replicate_succ]

/-- Every month has at most 31 days. -/
theorem daysInMonth_le_31 (y m : Nat) : daysInMonth y m ≤ 31 := by
  unfold daysInMonth
  split
  · split <;> omega
  · split <;> omega

/-- The sample variance of a constant sample of size at least two is
exactly `0`. -/
theorem varOf_replicate (n : ℕ) (c : ℚ) (hn : 2 ≤ n) :
    varOf (List.replicate n c) = some 0 := by
  have hn0 : (n : ℚ) ≠ 0 := Nat.cast_ne_zero.mpr (by omega)
  have hmean : (List.replicate n c).sum / ((List.replicate n c).length : ℚ) = c := by
    rw [List.sum_replicate, List.length_replicate, nsmul_eq_mul]
    exact mul_div_cancel_left₀ c hn0
  rw [varOf, if_neg (by rw [List.length_replicate]; omega)]
  rw [List.map_replicate, hmean]
  simp

/-- What a successful `summarize_changes` call is: the metric was a
column, the returned frame is the input with the `Month` column
written, and the summary is one record per distinct month. -/
theorem summarize_ok_elim {df : DF} {metric : String} {df2 : DF}
    {recs : List SummaryRec}
    (h : summarize_changes df metric = .ok (df2, recs)) :
    metric ∈ df.cols ∧ df2 = setMonth df ∧
      recs = (monthsOf (setMonth df).rows).map
        (fun k => mkRec metric k (bucketOf (setMonth df).rows k)) := by
  by_cases hm : metric ∈ df.cols
  · simp only [summarize_changes, hm, if_true] at h
    by_cases hb : (setMonth df).rows.any (fun r => badCell r metric)
    · rw [if_pos hb] at h
      exact absurd h (by simp)
    · rw [if_neg hb] at h
      simp only [Except.ok.injEq, Prod.mk.injEq] at h
      exact ⟨hm, h.1.symm, h.2.symm⟩
  · simp only [summarize_changes, hm, if_false] at h
    exact absurd h (by simp)

/-- Every record of the summary is the aggregation of the bucket named
by its own month key. -/
theorem mem_summary_eq {metric : String} {rows : List Row}
    {recs : List SummaryRec} {rec : SummaryRec}
    (hr : recs = (monthsOf rows).map (fun k => mkRec metric k (bucketOf rows k)))
    (h : rec ∈ recs) :
    rec = mkRec metric rec.month (bucketOf rows rec.month) := by
  subst hr
  obtain ⟨k, -, rfl⟩ := List.mem_map.mp h
  rfl

/-- Dropping the rows whose metric cell holds no number changes the
valid sample of a bucket not at all. -/
theorem numsOf_filter_valid (metric : String) (rows : List Row) :
    numsOf metric (rows.filter (fun r => (numOf r metric).isSome)) =
      numsOf metric rows := by
  induction rows with
  | nil => rfl
  | cons r rs ih =>
    by_cases hr : (numOf r metric).isSome
    · obtain ⟨q, hq⟩ := Option.isSome_iff_exists.mp hr
      simp [numsOf, List.filter_cons, hr, hq, List.filterMap_cons] at ih ⊢
      exact ih
    · have hq : numOf r metric = none := Option.not_isSome_iff_eq_none.mp hr
      simp [numsOf, List.filter_cons, hr, hq, List.filterMap_cons] at ih ⊢
      exact ih

/-- A two-digit field in range is consumed whole by `parseField`. -/
theorem parseField_two (maxv d1 d2 : Nat) (c1 c2 : Char) (rest : List Char)
    (h1 : digitVal c1 = some d1) (h2 : digitVal c2 = some d2)
    (hv : 1 ≤ 10 * d1 + d2 ∧ 10 * d1 + d2 ≤ maxv) :
    parseField maxv (c1 :: c2 :: rest) = some (10 * d1 + d2, rest) := by
  simp only [parseField, h1, h2]
  rw [if_pos hv]

/-- On a strict, zero-padded `YYYY-MM-DD` calendar date, `strptime`
succeeds and returns exactly that date. -/
theorem parseDate_of_strict (s : String) (a1 a2 a3 a4 b0 b1 b2 c0 c1 c2 : Char)
    (heq : s.data = [a1, a2, a3, a4, b0, b1, b2, c0, c1, c2])
    (w x y z m1 m2 d1 d2 : Nat)
    (hw : digitVal a1 = some w) (hx : digitVal a2 = some x)
    (hy : digitVal a3 = some y) (hz : digitVal a4 = some z)
    (hm1 : digitVal b1 = some m1) (hm2 : digitVal b2 = some m2)
    (hd1 : digitVal c1 = some d1) (hd2 : digitVal c2 = some d2)
    (hb0 : b0 = '-') (hc0 : c0 = '-')
    (hyr : 1 ≤ 1000 * w + 100 * x + 10 * y + z)
    (hmo1 : 1 ≤ 10 * m1 + m2) (hmo2 : 10 * m1 + m2 ≤ 12)
    (hdy1 : 1 ≤ 10 * d1 + d2)
    (hdy2 : 10 * d1 + d2 ≤ daysInMonth (1000 * w + 100 * x + 10 * y + z) (10 * m1 + m2)) :
    parseDate s =
      some ⟨1000 * w + 100 * x + 10 * y + z, 10 * m1 + m2, 10 * d1 + d2⟩ := by
  subst hb0 hc0
  unfold parseDate
  rw [heq]
  simp only [hw, hx, hy, hz,
    parseField_two 12 m1 m2 b1 b2 ['-', c1, c2] hm1 hm2 ⟨hmo1, hmo2⟩,
    parseField_two 31 d1 d2 c1 c2 [] hd1 hd2
      ⟨hdy1, le_trans hdy2 (daysInMonth_le_31 _ _)⟩]
  rw [if_pos ⟨trivial, hyr, hdy2⟩]

/-- Every strict `YYYY-MM-DD` calendar-date string parses. -/
theorem parseDate_isSome_of_specValid (s : String)
    (h : specValidYYYYMMDD s = true) : (parseDate s).isSome := by
  unfold specValidYYYYMMDD at h
  split at h
  next a1 a2 a3 a4 b0 b1 b2 c0 c1 c2 heq =>
    split at h
    next w x y z m1 m2 d1 d2 hw hx hy hz hm1 hm2 hd1 hd2 =>
      rw [decide_eq_true_eq] at h
      obtain ⟨hb0, hc0, hyr, hmo1, hmo2, hdy1, hdy2⟩ := h
      rw [parseDate_of_strict s a1 a2 a3 a4 b0 b1 b2 c0 c1 c2 heq
        w x y z m1 m2 d1 d2 hw hx hy hz hm1 hm2 hd1 hd2 hb0 hc0
        hyr hmo1 hmo2 hdy1 hdy2]
      rfl
    next => exact absurd h (by simp)
  next => exact absurd h (by simp)

/-! ### The claims -/

/-- C1: for every dataset and every pair of valid dates `start` and
`end`, the output of `filter_data` is a subsequence of the input
dataset preserving the rows' relative order, and every row in the
output has `start <= Date <= end`, inclusive at both ends. -/
theorem claim_C1_filter_subsequence_and_bounds (data : DF) (sd ed : String)
    (s e : Date) (hs : parseDate sd = some s) (he : parseDate ed = some e) :
    ∃ out, filter_data data sd ed = .ok out ∧ out.cols = data.cols ∧
      out.rows.Sublist data.rows ∧
      ∀ r ∈ out.rows, dateLe s r.date = true ∧ dateLe r.date e = true := by
  refine ⟨⟨data.cols, data.rows.filter fun r => dateLe s r.date && dateLe r.date e⟩,
    ?_, rfl, List.filter_sublist _, ?_⟩
  · simp only [filter_data, hs, he]
  · intro r hr
    have h2 := (List.mem_filter.mp hr).2
    rw [Bool.and_eq_true] at h2
    exact h2

/-- C1 witness: the filter property evaluated on a two-row dataset
over the window 2023-01-01 .. 2023-02-28. -/
theorem claim_C1_filter_subsequence_and_bounds_witness :
    parseDate "2023-01-01" = some ⟨2023, 1, 1⟩ ∧
    parseDate "2023-02-28" = some ⟨2023, 2, 28⟩ ∧
    ∃ out, filter_data
        (DF.mk ["Date", "NAV"]
          [Row.mk ⟨2022, 12, 31⟩ [("NAV", Value.na)],
           Row.mk ⟨2023, 1, 5⟩ [("NAV", Value.na)]])
        "2023-01-01" "2023-02-28" = .ok out ∧
      out.cols = (DF.mk ["Date", "NAV"]
          [Row.mk ⟨2022, 12, 31⟩ [("NAV", Value.na)],
           Row.mk ⟨2023, 1, 5⟩ [("NAV", Value.na)]]).cols ∧
      out.rows.Sublist (DF.mk ["Date", "NAV"]
          [Row.mk ⟨2022, 12, 31⟩ [("NAV", Value.na)],
           Row.mk ⟨2023, 1, 5⟩ [("NAV", Value.na)]]).rows ∧
      ∀ r ∈ out.rows, dateLe ⟨2023, 1, 1⟩ r.date = true ∧
        dateLe r.date ⟨2023, 2, 28⟩ = true :=
  ⟨by decide, by decide,
    claim_C1_filter_subsequence_and_bounds _ "2023-01-01" "2023-02-28"
      ⟨2023, 1, 1⟩ ⟨2023, 2, 28⟩ (by decide) (by decide)⟩

/-- C6: for every dataset and every pair of valid dates, if no row's
date falls inside the inclusive window — in particular whenever
`start > end` — `filter_data` returns the empty frame, not an error. -/
theorem claim_C6_empty_range_ok (data : DF) (sd ed : String) (s e : Date)
    (hs : parseDate sd = some s) (he : parseDate ed = some e)
    (hnone : ∀ r ∈ data.rows, ¬(dateLe s r.date = true ∧ dateLe r.date e = true)) :
    filter_data data sd ed = .ok ⟨data.cols, []⟩ := by
  simp only [filter_data, hs, he]
  have hnil : data.rows.filter (fun r => dateLe s r.date && dateLe r.date e) = [] := by
    rw [List.filter_eq_nil_iff]
    intro r hr hb
    rw [Bool.and_eq_true] at hb
    exact hnone r hr hb
  rw [hnil]

/-- C6 witness: a reversed range (start 2023-03-01 after end 2023-01-01)
over a nonempty dataset yields the empty frame rather than an error. -/
theorem claim_C6_empty_range_ok_witness :
    parseDate "2023-03-01" = some ⟨2023, 3, 1⟩ ∧
    parseDate "2023-01-01" = some ⟨2023, 1, 1⟩ ∧
    filter_data (DF.mk ["Date"] [Row.mk ⟨2023, 1, 5⟩ []]) "2023-03-01" "2023-01-01" =
      .ok ⟨(DF.mk ["Date"] [Row.mk ⟨2023, 1, 5⟩ []]).cols, []⟩ :=
  ⟨by decide, by decide,
    claim_C6_empty_range_ok _ "2023-03-01" "2023-01-01" ⟨2023, 3, 1⟩ ⟨2023, 1, 1⟩
      (by decide) (by decide) (by decide)⟩

/-- C7 counterexample: the argument "2023-1-5" is not a valid
zero-padded `YYYY-MM-DD` string, yet `strptime`'s `%m`/`%d` accept one
digit, so `filter_data` succeeds on it instead of failing with
`FormatError` — refuting "fails whenever either argument is not a
valid YYYY-MM-DD date string". -/
theorem claim_C7_cex_unpadded_accepted :
    specValidYYYYMMDD "2023-1-5" = false ∧
    parseDate "2023-1-5" = some ⟨2023, 1, 5⟩ ∧
    filter_data (DF.mk ["Date"] [Row.mk ⟨2023, 1, 5⟩ []]) "2023-1-5" "2023-01-05" =
      .ok (DF.mk ["Date"] [Row.mk ⟨2023, 1, 5⟩ []]) :=
  ⟨by decide, by decide, by decide⟩

/-- C7 (amended): `filter_data` fails with `FormatError` exactly when
`strptime`-style parsing of either bound fails (4-digit year, 1-2 digit
month and day, a real calendar date); and every strict `YYYY-MM-DD`
calendar-date string does parse, so filtering never fails on valid
`YYYY-MM-DD` input.  Some non-zero-padded strings also parse. -/
theorem claim_C7_format_error_iff_unparseable (data : DF) (sd ed : String) :
    (filter_data data sd ed = .error .formatError ↔
      (parseDate sd = none ∨ parseDate ed = none)) ∧
    (specValidYYYYMMDD sd = true → (parseDate sd).isSome) := by
  refine ⟨?_, parseDate_isSome_of_specValid sd⟩
  cases hs : parseDate sd <;> cases he : parseDate ed <;>
    simp [filter_data, hs, he]

/-- C7 witness: both directions exercised — a valid `YYYY-MM-DD` bound
parses, and an unparseable bound makes `filter_data` fail. -/
theorem claim_C7_format_error_iff_unparseable_witness :
    (specValidYYYYMMDD "2023-01-05" = true ∧ (parseDate "2023-01-05").isSome) ∧
    (filter_data (DF.mk ["Date"] []) "2023-01-05" "not-a-date" = .error .formatError ↔
      (parseDate "2023-01-05" = none ∨ parseDate "not-a-date" = none)) :=
  ⟨⟨by decide,
    (claim_C7_format_error_iff_unparseable (DF.mk ["Date"] []) "2023-01-05" "x").2
      (by decide)⟩,
   (claim_C7_format_error_iff_unparseable (DF.mk ["Date"] []) "2023-01-05" "not-a-date").1⟩

/-- C3: `summarize_changes` raises `UnknownMetricError` if and only if
the metric name is not among the frame's columns, and the error
message echoes the invalid metric name back. -/
theorem claim_C3_unknown_metric_iff (df : DF) (metric : String) :
    (∃ msg, summarize_changes df metric = .error (.unknownMetric msg) ∧
      ∃ a b, msg = a ++ metric ++ b) ↔ metric ∉ df.cols := by
  by_cases hm : metric ∈ df.cols
  · simp only [summarize_changes, hm, if_true]
    constructor
    · rintro ⟨msg, hmsg, -⟩
      exfalso
      revert hmsg
      split <;> simp
    · intro hc
      exact absurd trivial hc
  · simp only [summarize_changes, hm, if_false]
    constructor
    · intro _
      exact not_false
    · intro _
      exact ⟨"Metric '" ++ metric ++ "' not found in the dataset.", rfl,
        "Metric '", "' not found in the dataset.", rfl⟩

/-- C3 witness: the equivalence evaluated at a frame without the
requested column. -/
theorem claim_C3_unknown_metric_iff_witness :
    (∃ msg, summarize_changes (DF.mk ["Date", "Return"] []) "NAV" =
        .error (.unknownMetric msg) ∧ ∃ a b, msg = a ++ "NAV" ++ b) ↔
      "NAV" ∉ (DF.mk ["Date", "Return"] ([] : List Row)).cols :=
  claim_C3_unknown_metric_iff (DF.mk ["Date", "Return"] []) "NAV"

/-- C4: in the output of `summarize_changes`, a month bucket with
exactly one row has an undefined (NaN) standard deviation, and a
bucket of two or more rows whose metric values are all the same number
has a standard deviation of exactly `0` (sample standard deviation,
denominator `N - 1`) — stated over the carried sample variance, whose
square root the reported standard deviation is. -/
theorem claim_C4_stddev_singleton_nan_constant_zero (df : DF) (metric : String)
    (df2 : DF) (recs : List SummaryRec) (rec : SummaryRec)
    (h : summarize_changes df metric = .ok (df2, recs)) (hmem : rec ∈ recs) :
    ((bucketOf df2.rows rec.month).length = 1 → rec.svar = none) ∧
    (∀ c : ℚ, 2 ≤ (bucketOf df2.rows rec.month).length →
      (∀ r ∈ bucketOf df2.rows rec.month, numOf r metric = some c) →
      rec.svar = some 0) := by
  obtain ⟨-, hdf2, hrecs⟩ := summarize_ok_elim h
  subst hdf2
  have hrec := mem_summary_eq hrecs hmem
  have hsvar : rec.svar =
      varOf (numsOf metric (bucketOf (setMonth df).rows rec.month)) := by
    conv_lhs => rw [hrec]
    rfl
  constructor
  · intro h1
    have hle := numsOf_length_le metric (bucketOf (setMonth df).rows rec.month)
    rw [hsvar, varOf, if_pos (by omega)]
  · intro c hlen hall
    rw [hsvar, numsOf_constant metric c _ hall]
    exact varOf_replicate _ c hlen

/-- A concrete frame for exercising C4: January 2023 holds two rows
with the constant metric value 7, February 2023 a single row. -/
def dfC4 : DF :=
  DF.mk ["Date", "Val"]
    [Row.mk ⟨2023, 1, 5⟩ [("Val", Value.num 7)],
     Row.mk ⟨2023, 1, 20⟩ [("Val", Value.num 7)],
     Row.mk ⟨2023, 2, 3⟩ [("Val", Value.num 7)]]

/-- C4 witness: on `dfC4`, the two-row constant January bucket gets
sample variance exactly `0` and the singleton February bucket gets
NaN. -/
theorem claim_C4_stddev_singleton_nan_constant_zero_witness :
    (2 ≤ (bucketOf (setMonth dfC4).rows (2023, 1)).length ∧
      (∀ r ∈ bucketOf (setMonth dfC4).rows (2023, 1), numOf r "Val" = some 7) ∧
      (mkRec "Val" (2023, 1) (bucketOf (setMonth dfC4).rows (2023, 1))).svar = some 0) ∧
    ((bucketOf (setMonth dfC4).rows (2023, 2)).length = 1 ∧
      (mkRec "Val" (2023, 2) (bucketOf (setMonth dfC4).rows (2023, 2))).svar = none) :=
  ⟨⟨by decide, by decide,
    (claim_C4_stddev_singleton_nan_constant_zero dfC4 "Val" (setMonth dfC4)
      ((monthsOf (setMonth dfC4).rows).map
        (fun k => mkRec "Val" k (bucketOf (setMonth dfC4).rows k)))
      (mkRec "Val" (2023, 1) (bucketOf (setMonth dfC4).rows (2023, 1)))
      rfl (List.mem_map_of_mem _ (by decide))).2 7 (by decide) (by decide)⟩,
   ⟨by decide,
    (claim_C4_stddev_singleton_nan_constant_zero dfC4 "Val" (setMonth dfC4)
      ((monthsOf (setMonth dfC4).rows).map
        (fun k => mkRec "Val" k (bucketOf (setMonth dfC4).rows k)))
      (mkRec "Val" (2023, 2) (bucketOf (setMonth dfC4).rows (2023, 2)))
      rfl (List.mem_map_of_mem _ (by decide))).1 (by decide)⟩⟩

/-- C5 counterexample: a non-numeric (string-valued) metric cell is
not excluded from the computation — `summarize_changes` fails with the
aggregation error instead of averaging the remaining numeric values,
refuting "missing or non-numeric metric values ... are excluded". -/
theorem claim_C5_cex_string_not_excluded :
    summarize_changes
        (DF.mk ["Date", "Val"]
          [Row.mk ⟨2023, 1, 5⟩ [("Val", Value.na)],
           Row.mk ⟨2023, 1, 20⟩ [("Val", Value.str "n/a")]]) "Val" =
      .error .aggError := by decide

/-- C5 (amended): missing (NaN) metric values in a bucket are excluded
from both the mean and the standard-deviation computation — dropping
them changes no summary record — and a bucket with zero valid numeric
values has both statistics undefined; non-numeric (string) values,
however, are not excluded: they make the aggregation fail. -/
theorem claim_C5_missing_excluded_zero_valid_undefined :
    (∀ (metric : String) (k : Nat × Nat) (rows : List Row),
      mkRec metric k (rows.filter (fun r => (numOf r metric).isSome)) =
        mkRec metric k rows) ∧
    (∀ (df : DF) (metric : String) (df2 : DF) (recs : List SummaryRec)
      (rec : SummaryRec),
      summarize_changes df metric = .ok (df2, recs) → rec ∈ recs →
      numsOf metric (bucketOf df2.rows rec.month) = [] →
      rec.mean = none ∧ rec.svar = none) := by
  constructor
  · intro metric k rows
    unfold mkRec
    rw [numsOf_filter_valid]
  · intro df metric df2 recs rec h hmem h0
    obtain ⟨-, hdf2, hrecs⟩ := summarize_ok_elim h
    subst hdf2
    have hrec := mem_summary_eq hrecs hmem
    have hmean : rec.mean =
        meanOf (numsOf metric (bucketOf (setMonth df).rows rec.month)) := by
      conv_lhs => rw [hrec]
      rfl
    have hsvar : rec.svar =
        varOf (numsOf metric (bucketOf (setMonth df).rows rec.month)) := by
      conv_lhs => rw [hrec]
      rfl
    rw [hmean, hsvar, h0]
    exact ⟨by simp [meanOf], by simp [varOf]⟩

/-- A concrete frame for exercising C5: a single January 2023 row
whose metric cell is missing. -/
def dfC5 : DF :=
  DF.mk ["Date", "Val"] [Row.mk ⟨2023, 1, 5⟩ [("Val", Value.na)]]

/-- C5 witness: dropping a missing-valued row leaves the record
unchanged, and the all-missing January bucket of `dfC5` has undefined
mean and standard deviation. -/
theorem claim_C5_missing_excluded_zero_valid_undefined_witness :
    (mkRec "Val" (2023, 1)
        ([Row.mk ⟨2023, 1, 5⟩ [("Val", Value.na)],
          Row.mk ⟨2023, 1, 20⟩ [("Val", Value.num 7)]].filter
          (fun r => (numOf r "Val").isSome)) =
      mkRec "Val" (2023, 1)
        [Row.mk ⟨2023, 1, 5⟩ [("Val", Value.na)],
         Row.mk ⟨2023, 1, 20⟩ [("Val", Value.num 7)]]) ∧
    (numsOf "Val" (bucketOf (setMonth dfC5).rows (2023, 1)) = []) ∧
    ((mkRec "Val" (2023, 1) (bucketOf (setMonth dfC5).rows (2023, 1))).mean = none ∧
      (mkRec "Val" (2023, 1) (bucketOf (setMonth dfC5).rows (2023, 1))).svar = none) :=
  ⟨claim_C5_missing_excluded_zero_valid_undefined.1 "Val" (2023, 1) _,
   by decide,
   claim_C5_missing_excluded_zero_valid_undefined.2 dfC5 "Val" (setMonth dfC5)
     ((monthsOf (setMonth dfC5).rows).map
       (fun k => mkRec "Val" k (bucketOf (setMonth dfC5).rows k)))
     (mkRec "Val" (2023, 1) (bucketOf (setMonth dfC5).rows (2023, 1)))
     rfl (List.mem_map_of_mem _ (by decide)) (by decide)⟩

/-- C9: whenever a query operation (filtering or summarizing) raises
an error, the loaded dataset held by the pipeline is left unchanged,
so the query can be retried with corrected parameters. -/
theorem claim_C9_error_leaves_monitor_unchanged (m : Monitor)
    (sd ed metric : String) (e : Err)
    (h : (runQuery m sd ed metric).1 = .error e) :
    (runQuery m sd ed metric).2 = m := by
  rcases hf : filter_data m.data sd ed with e2 | filtered
  · simp [runQuery, hf]
  · rcases hs : summarize_changes filtered metric with e2 | res
    · simp [runQuery, hf, hs]
    · simp [runQuery, hf, hs]

/-- C9 witness: a query with an unparseable start date errors and the
monitor still holds the same frame. -/
theorem claim_C9_error_leaves_monitor_unchanged_witness :
    ((runQuery (Monitor.mk (DF.mk ["Date"] [Row.mk ⟨2023, 1, 5⟩ []]))
        "bad" "2023-01-01" "Val").1 = .error .formatError) ∧
    (runQuery (Monitor.mk (DF.mk ["Date"] [Row.mk ⟨2023, 1, 5⟩ []]))
        "bad" "2023-01-01" "Val").2 =
      Monitor.mk (DF.mk ["Date"] [Row.mk ⟨2023, 1, 5⟩ []]) :=
  ⟨by decide,
   claim_C9_error_leaves_monitor_unchanged _ "bad" "2023-01-01" "Val"
     .formatError (by decide)⟩

/-- C10 counterexample: calling `summarize_changes` twice on the same
frame refutes "the caller's filtered data is not the same after the
call": the first call adds the `Month` column, and the second —
equally successful — call overwrites it with identical periods, so the
frame it hands back equals the frame passed in. -/
theorem claim_C10_cex_second_call_leaves_frame_equal :
    summarize_changes
        (DF.mk ["Date", "Val"] [Row.mk ⟨2023, 1, 5⟩ [("Val", Value.na)]]) "Val" =
      .ok (DF.mk ["Date", "Val", "Month"]
          [Row.mk ⟨2023, 1, 5⟩ [("Val", Value.na), ("Month", Value.per 2023 1)]],
        [SummaryRec.mk (2023, 1) none none]) ∧
    summarize_changes
        (DF.mk ["Date", "Val", "Month"]
          [Row.mk ⟨2023, 1, 5⟩ [("Val", Value.na), ("Month", Value.per 2023 1)]])
        "Val" =
      .ok (DF.mk ["Date", "Val", "Month"]
          [Row.mk ⟨2023, 1, 5⟩ [("Val", Value.na), ("Month", Value.per 2023 1)]],
        [SummaryRec.mk (2023, 1) none none]) :=
  ⟨by decide, by decide⟩

/-- C10 (amended): on a successful call, `summarize_changes` writes
the `Month` column into the frame passed to it — appending it when
absent, overwriting it when present; whenever the frame had no `Month`
column beforehand (the normal case for freshly filtered data), the
caller's frame differs after the call, having gained that column. -/
theorem claim_C10_month_written_frame_changed (df : DF) (metric : String)
    (df2 : DF) (recs : List SummaryRec)
    (hnm : "Month" ∉ df.cols)
    (h : summarize_changes df metric = .ok (df2, recs)) :
    df2 = setMonth df ∧ df2.cols = df.cols ++ ["Month"] ∧ df2 ≠ df := by
  obtain ⟨-, hdf2, -⟩ := summarize_ok_elim h
  subst hdf2
  refine ⟨rfl, by simp [setMonth, hnm], ?_⟩
  intro hEq
  have hc := congrArg DF.cols hEq
  simp only [setMonth, hnm, if_false] at hc
  have h2 := congrArg List.length hc
  rw [List.length_append] at h2
  simp at h2

/-- A concrete frame for exercising C10: one January 2023 row, no
`Month` column yet. -/
def dfC10 : DF :=
  DF.mk ["Date", "Val"] [Row.mk ⟨2023, 1, 5⟩ [("Val", Value.na)]]

/-- C10 witness: summarizing `dfC10` succeeds and hands back a frame
that gained the `Month` column and differs from the input. -/
theorem claim_C10_month_written_frame_changed_witness :
    ("Month" ∉ dfC10.cols) ∧
    ((setMonth dfC10).cols = dfC10.cols ++ ["Month"] ∧ setMonth dfC10 ≠ dfC10) :=
  ⟨by decide,
   (claim_C10_month_written_frame_changed dfC10 "Val" (setMonth dfC10)
     ((monthsOf (setMonth dfC10).rows).map
       (fun k => mkRec "Val" k (bucketOf (setMonth dfC10).rows k)))
     (by decide) rfl).2⟩

end MF
